import Mathlib

/-!
# Verification of the webhook event-dispatch core of `github-app-handler`

Shallow embedding of `src/githubapp/webhook_handler.py` (the handler
registry `add_handler` / `webhook_handler` / `_validate_signature` and the
dispatch loop `handle`).

Modelling decisions, each justified against the source:

* The EventType hierarchy is Python's class hierarchy, walked via
  `event.__subclasses__()`.  It is embedded as an explicit finite tree
  (`EventTree`): a node id together with the list of child subtrees, in
  declaration order.  A node with an empty child list is a leaf class.
* A handler callable is embedded as `Handler`: its qualified name, its
  declared parameter list (what `inspect.signature(method).parameters`
  yields, in declaration order), and its runtime behaviour when invoked
  (either it returns, or it raises a fixed exception) — handlers are opaque
  callables to the dispatcher, so one invocation outcome is all that the
  dispatch code can observe.
* Python exceptions raised by the embedded code are `PyExc`; the dispatcher
  catches `Exception` subclasses, which all of these are.
* The global mutable registry `handlers = defaultdict(list)` becomes
  explicit state passing: an association list `Registry` from class id to
  the ordered handler list.  `handlers[event].append(method)` is
  `Registry.append` (inserting an empty entry first when the key is absent,
  exactly as `defaultdict` does); `handlers.get(event_class, [])` is
  `Registry.get` which never inserts.
* `handle`'s observable actions (constructing an event instance, invoking a
  handler, updating a check run) are recorded in an `Effect` trace; `handle`
  returns the (unchanged, see `Registry.get`) registry, the trace, and
  either unit or the propagated exception.
* `Event.get_event` lives in `githubapp/events/event.py`, a file of this
  repository that is not under `src/`; no claim below depends on its
  internals, so `handle` takes the resolver as an explicit function
  argument.  Likewise the check-run reference bound to an event instance is
  modelled from the spec (see `Event.mk_event`).
* `_get_auth`, `Github(...)` and `Requester(...)` construction are
  external-collaborator plumbing (spec §1 excludes authentication and API
  client mechanics from the core); they produce no modelled effect.
-/

set_option autoImplicit false

namespace GithubApp

/-- The kind of a declared Python parameter, as reported by
`inspect.signature(...).parameters` (POSITIONAL_ONLY and
POSITIONAL_OR_KEYWORD are merged: the distinction never matters here). -/
inductive ParamKind where
  | positional
  | varPositional
  | keywordOnly
  | varKeyword
  deriving DecidableEq

/-- One declared parameter of a Python callable: its name, kind, and
whether it carries a default value. -/
structure PyParam where
  name : String
  kind : ParamKind
  hasDefault : Bool
  deriving DecidableEq

/-- A Python exception value (all `Exception` subclasses as far as the
dispatcher can see): the built-in `KeyError` raised by a failing dict
lookup, the built-in `ValueError` raised by a failing `int(...)`, or an
arbitrary exception raised inside a handler, carried as type name and
message. -/
inductive PyExc where
  | keyError (key : String)
  | valueError (msg : String)
  | exc (typeName : String) (msg : String)
  deriving DecidableEq

/-- A registered handler callable: qualified name, declared parameter
list, and the outcome of invoking it (`none` = returns normally,
`some e` = raises `e`). -/
structure Handler where
  qualname : String
  params : List PyParam
  behavior : Option PyExc
  deriving DecidableEq

/-- The static EventType hierarchy: a class (by numeric id) with its list
of subclasses in declaration order, as `event.__subclasses__()` reports
them.  An empty child list means the class is a leaf event type. -/
inductive EventTree where
  | mk (id : Nat) (children : List EventTree)

/-- The class id at the root of a subtree. -/
def EventTree.id : EventTree → Nat
  | .mk i _ => i

/-- The subclasses of the root of a subtree (`event.__subclasses__()`). -/
def EventTree.children : EventTree → List EventTree
  | .mk _ cs => cs

mutual

/-- The ids of the leaf classes below (or at) a node, in the depth-first
declaration order in which `add_handler` visits them. -/
def EventTree.leafIds : EventTree → List Nat
  | .mk i cs => if cs.isEmpty then [i] else leafIdsList cs

/-- `EventTree.leafIds` mapped over a forest and concatenated. -/
def EventTree.leafIdsList : List EventTree → List Nat
  | [] => []
  | t :: ts => t.leafIds ++ leafIdsList ts

end

/-- The handler registry `handlers = defaultdict(list)`: class id to the
ordered list of registered handlers.  Keys are unique (every operation
below preserves that). -/
def Registry := List (Nat × List Handler)

instance : DecidableEq Registry := by
  unfold Registry
  infer_instance

/-- The pristine registry (module-level `handlers = defaultdict(list)`). -/
def handlers : Registry := []

/-- `handlers[event].append(method)`: `defaultdict.__getitem__` inserts an
empty list when the key is absent, then the handler is appended to it. -/
def Registry.append (reg : Registry) (k : Nat) (m : Handler) : Registry :=
  match reg with
  | [] => [(k, [m])]
  | (k', ms) :: rest =>
    if k' = k then (k', ms ++ [m]) :: rest else (k', ms) :: Registry.append rest k m

/-- `handlers.get(event_class, [])`: a plain `dict.get` with default, which
never inserts anything. -/
def Registry.get (reg : Registry) (k : Nat) : List Handler :=
  match reg with
  | [] => []
  | (k', ms) :: rest => if k' = k then ms else Registry.get rest k

/-- The set of keys currently held by the registry. -/
def Registry.keys : Registry → List Nat
  | [] => []
  | (k, _) :: rest => k :: Registry.keys rest

/-- The exception object built by `SignatureError.__init__`: it stores the
formatted `message`. -/
structure SignatureError where
  message : String
  deriving DecidableEq

/-- `SignatureError(method, signature)` where `signature` is the joined
parameter-name list computed at the raise site. -/
def mkSignatureError (m : Handler) (signature : String) : SignatureError :=
  ⟨"Method " ++ m.qualname ++ "(" ++ signature ++ ") signature error. " ++
    "The method must accept only one argument of the Event type"⟩

/-- `_validate_signature(method)`: reads the declared parameters, and when
their number differs from 1 raises `SignatureError` with
`", ".join(parameters.keys())` as the signature text. -/
def validate_signature (m : Handler) : Option SignatureError :=
  let parameters := m.params
  if parameters.length ≠ 1 then
    some (mkSignatureError m (String.intercalate ", " (parameters.map (·.name))))
  else
    none

mutual

/-- `add_handler(event, method)`: when `event.__subclasses__()` is
non-empty, recurse into every subclass in order; otherwise validate the
method's signature and append it to `handlers[event]`.  The registry is
threaded explicitly; `some err` means the Python call raised
`SignatureError` with the registry left in the returned state. -/
def add_handler (t : EventTree) (m : Handler) (reg : Registry) :
    Registry × Option SignatureError :=
  match t with
  | .mk i children =>
    if children.isEmpty then
      match validate_signature m with
      | some e => (reg, some e)
      | none => (Registry.append reg i m, none)
    else
      add_handler_list children m reg

/-- The `for sub_event in subclasses: add_handler(sub_event, method)` loop:
sequential, stopping at the first raised `SignatureError`. -/
def add_handler_list (ts : List EventTree) (m : Handler) (reg : Registry) :
    Registry × Option SignatureError :=
  match ts with
  | [] => (reg, none)
  | t :: rest =>
    match add_handler t m reg with
    | (reg', none) => add_handler_list rest m reg'
    | (reg', some e) => (reg', some e)

end

/-- `webhook_handler(event)` applied to `method`: the decorator registers
the method via `add_handler` and returns the method unchanged. -/
def webhook_handler (event : EventTree) (method : Handler) (reg : Registry) :
    (Registry × Option SignatureError) × Handler :=
  (add_handler event method reg, method)

/-! ## The dispatch side of `webhook_handler.py` -/

/-- The request headers: a string-keyed Python dict (unique keys). -/
def Headers := List (String × String)

/-- `headers[k]` as an optional lookup; the caller turns `none` into the
`KeyError` that a Python subscript raises. -/
def Headers.get (hs : Headers) (k : String) : Option String :=
  match hs with
  | [] => none
  | (k', v) :: rest => if k' = k then some v else Headers.get rest k

/-- The `installation` sub-object of the body: its `id` field may itself be
absent. -/
structure Installation where
  id : Option Int

/-- The parsed JSON body, restricted to the fields the dispatch core
reads: the optional `installation` object, and whether the payload binds a
check-run reference to the constructed event instance (spec §4.3: the
reference is derivable locally from payload fields or left unset). -/
structure Body where
  installation : Option Installation
  has_check_run : Bool

/-- Decimal digit-string accumulator: the value of a run of digits, or
`none` when a non-digit occurs. -/
def digitsVal : List Char → Nat → Option Nat
  | [], acc => some acc
  | c :: cs, acc =>
    if '0' ≤ c ∧ c ≤ '9' then digitsVal cs (acc * 10 + (c.toNat - '0'.toNat))
    else none

/-- `int(s)` on a string: parses a signed decimal literal, raising
`ValueError` otherwise.  (Python additionally strips whitespace and allows
digit-group underscores; no claim depends on those, so they are omitted.) -/
def pyInt (s : String) : Except PyExc Int :=
  match s.data with
  | [] =>
    Except.error (.valueError ("invalid literal for int() with base 10: '" ++ s ++ "'"))
  | '-' :: cs =>
    match cs, digitsVal cs 0 with
    | _ :: _, some natVal => Except.ok (-(natVal : Int))
    | _, _ =>
      Except.error (.valueError ("invalid literal for int() with base 10: '" ++ s ++ "'"))
  | cs =>
    match digitsVal cs 0 with
    | some natVal => Except.ok (natVal : Int)
    | none =>
      Except.error (.valueError ("invalid literal for int() with base 10: '" ++ s ++ "'"))

/-- The exception type name shown in a traceback. -/
def PyExc.typeName : PyExc → String
  | .keyError _ => "KeyError"
  | .valueError _ => "ValueError"
  | .exc n _ => n

/-- The exception message shown in a traceback (`KeyError` reprs its key). -/
def PyExc.text : PyExc → String
  | .keyError k => "'" ++ k ++ "'"
  | .valueError m => m
  | .exc _ m => m

/-- `traceback.format_exc()` for the exception currently being handled:
the traceback header followed by the exception's type and message. -/
def format_exc (e : PyExc) : String :=
  "Traceback (most recent call last):\n  ...\n" ++ e.typeName ++ ": " ++ e.text

/-- An event instance, `event_class(gh=gh, requester=requester,
headers=headers, **body)`.  `ctorIndex` identifies which construction in
the dispatch loop produced this instance (instance identity); `check_run`
is the truthiness of `event.check_run`.

Modelled from the spec: the `Event` base class (`githubapp/events/event.py`)
is not under `src/`; per spec §4.3 an instance carries "an optional bound
reference to a check run" derived locally from the payload, and §2 lists
the common fields.  Only identity, class and check-run binding are
observable by the dispatch code under verification. -/
structure EventInst where
  event_class : Nat
  check_run : Bool
  ctorIndex : Nat
  deriving DecidableEq

/-- Constructing the event instance for one loop iteration. -/
def mk_event (event_class : Nat) (body : Body) (idx : Nat) : EventInst :=
  ⟨event_class, body.has_check_run, idx⟩

/-- An observable action of `handle`: constructing an event instance,
invoking the `k`-th registered handler with a given instance, or calling
`event.update_check_run(conclusion=..., text=...)`. -/
inductive Effect where
  | constructEvent (instance_ : EventInst)
  | invoke (handlerIndex : Nat) (instance_ : EventInst)
  | update_check_run (conclusion : String) (text : String)
  deriving DecidableEq

/-- The dispatch loop `for handler in handlers.get(event_class, [])`:
each iteration constructs a fresh event instance, invokes the handler
with it, and on an exception updates the check run (when the instance
carries one) before re-raising the original exception. -/
def run_handlers (hs : List Handler) (event_class : Nat) (body : Body) (idx : Nat) :
    List Effect × Except PyExc Unit :=
  match hs with
  | [] => ([], Except.ok ())
  | h :: rest =>
    let event := mk_event event_class body idx
    match h.behavior with
    | none =>
      let rest_result := run_handlers rest event_class body (idx + 1)
      (.constructEvent event :: .invoke idx event :: rest_result.1, rest_result.2)
    | some e =>
      if event.check_run then
        ([.constructEvent event, .invoke idx event,
          .update_check_run "failure" (format_exc e)], Except.error e)
      else
        ([.constructEvent event, .invoke idx event], Except.error e)

/-- `handle(headers, body)`.  In source order: resolve the event class via
`Event.get_event` (passed in as `get_event`, see the module comment); read
and convert the `X-Github-Hook-Installation-Target-Id` header; read and
convert `body["installation"]["id"]`; build the auth/client objects
(external, no modelled effect); then run the dispatch loop over
`handlers.get(event_class, [])`.  Returns the registry (threaded state),
the effect trace, and unit or the propagated exception. -/
def handle (get_event : Headers → Body → Except PyExc Nat) (reg : Registry)
    (headers : Headers) (body : Body) :
    Registry × List Effect × Except PyExc Unit :=
  match get_event headers body with
  | .error e => (reg, [], .error e)
  | .ok event_class =>
    match headers.get "X-Github-Hook-Installation-Target-Id" with
    | none => (reg, [], .error (.keyError "X-Github-Hook-Installation-Target-Id"))
    | some v =>
      match pyInt v with
      | .error e => (reg, [], .error e)
      | .ok _hook_installation_target_id =>
        match body.installation with
        | none => (reg, [], .error (.keyError "installation"))
        | some installation =>
          match installation.id with
          | none => (reg, [], .error (.keyError "id"))
          | some _installation_id =>
            let result := run_handlers (reg.get event_class) event_class body 0
            (reg, result.1, result.2)

/-- A finite chronological sequence of `add_handler(eventType, handler)`
calls, executed left to right, stopping at the first raised
`SignatureError` (which aborts the remaining calls, as an uncaught Python
exception would). -/
def registerAll (regs : List (EventTree × Handler)) (reg : Registry) :
    Registry × Option SignatureError :=
  match regs with
  | [] => (reg, none)
  | (t, m) :: rest =>
    match add_handler t m reg with
    | (reg', none) => registerAll rest reg'
    | (reg', some e) => (reg', some e)

/-! ## Registration lemmas -/

/-- Appending one handler under every id of a list, left to right:
the cumulative registry effect of a successful `add_handler` call. -/
def appendLeaves (reg : Registry) (ls : List Nat) (m : Handler) : Registry :=
  match ls with
  | [] => reg
  | l :: rest => appendLeaves (Registry.append reg l m) rest m

theorem Registry.get_append (reg : Registry) (k : Nat) (m : Handler) (L : Nat) :
    (Registry.append reg k m).get L = reg.get L ++ (if L = k then [m] else []) := by
  induction reg with
  | nil =>
    by_cases h : L = k
    · subst h
      simp [Registry.append, Registry.get]
    · simp [Registry.append, Registry.get, h, Ne.symm h]
  | cons hd tl ih =>
    obtain ⟨k', ms⟩ := hd
    by_cases hk : k' = k
    · subst hk
      by_cases hL : k' = L
      · subst hL
        simp [Registry.append, Registry.get]
      · have hL' : ¬L = k' := fun h => hL h.symm
        simp [Registry.append, Registry.get, hL, hL']
    · by_cases hL : k' = L
      · subst hL
        simp [Registry.append, Registry.get, hk, Ne.symm hk]
      · simp [Registry.append, Registry.get, hk, hL, ih]

theorem Registry.keys_append (reg : Registry) (k : Nat) (m : Handler) :
    (Registry.append reg k m).keys =
      if k ∈ reg.keys then reg.keys else reg.keys ++ [k] := by
  induction reg with
  | nil => simp [Registry.append, Registry.keys]
  | cons hd tl ih =>
    obtain ⟨k', ms⟩ := hd
    by_cases hk : k' = k
    · subst hk
      simp [Registry.append, Registry.keys]
    · by_cases hmem : k ∈ Registry.keys tl
      · simp [Registry.append, Registry.keys, hk, ih, hmem, Ne.symm hk]
      · simp [Registry.append, Registry.keys, hk, ih, hmem, Ne.symm hk]

theorem Registry.mem_keys_append (reg : Registry) (k : Nat) (m : Handler) (x : Nat)
    (hx : x ∈ (Registry.append reg k m).keys) : x ∈ reg.keys ∨ x = k := by
  by_cases hmem : k ∈ reg.keys
  · rw [Registry.keys_append, if_pos hmem] at hx
    exact Or.inl hx
  · rw [Registry.keys_append, if_neg hmem] at hx
    rcases List.mem_append.mp hx with h | h
    · exact Or.inl h
    · exact Or.inr (List.mem_singleton.mp h)

theorem appendLeaves_append (reg : Registry) (a b : List Nat) (m : Handler) :
    appendLeaves reg (a ++ b) m = appendLeaves (appendLeaves reg a m) b m := by
  induction a generalizing reg with
  | nil => simp [appendLeaves]
  | cons l rest ih => simp [appendLeaves, ih]

theorem get_appendLeaves (reg : Registry) (ls : List Nat) (m : Handler) (L : Nat)
    (hnd : ls.Nodup) :
    (appendLeaves reg ls m).get L = reg.get L ++ (if L ∈ ls then [m] else []) := by
  induction ls generalizing reg with
  | nil => simp [appendLeaves]
  | cons l rest ih =>
    have hnd' : rest.Nodup := hnd.of_cons
    have hl : l ∉ rest := (List.nodup_cons.mp hnd).1
    rw [appendLeaves, ih _ hnd', Registry.get_append]
    by_cases hL : L = l
    · subst hL
      simp [hl]
    · simp [hL]

theorem mem_keys_appendLeaves (reg : Registry) (ls : List Nat) (m : Handler) (x : Nat)
    (hx : x ∈ (appendLeaves reg ls m).keys) : x ∈ reg.keys ∨ x ∈ ls := by
  induction ls generalizing reg with
  | nil => exact Or.inl hx
  | cons l rest ih =>
    rw [appendLeaves] at hx
    rcases ih _ hx with h | h
    · rcases Registry.mem_keys_append reg l m x h with h' | h'
      · exact Or.inl h'
      · exact Or.inr (by simp [h'])
    · exact Or.inr (List.mem_cons_of_mem _ h)

/-- A handler passes `_validate_signature` exactly when it declares exactly
one parameter. -/
theorem validate_signature_eq_none (m : Handler) :
    validate_signature m = none ↔ m.params.length = 1 := by
  unfold validate_signature
  by_cases h : m.params.length = 1 <;> simp [h]

/-- A successful `add_handler` call appends the handler at every leaf id of
the registered subtree, in depth-first declaration order, and raises
nothing. -/
theorem add_handler_of_valid :
    ∀ (t : EventTree) (m : Handler) (reg : Registry),
      validate_signature m = none →
      add_handler t m reg = (appendLeaves reg t.leafIds m, none) := by
  refine add_handler.induct
    (fun t m reg => validate_signature m = none →
      add_handler t m reg = (appendLeaves reg t.leafIds m, none))
    (fun ts m reg => validate_signature m = none →
      add_handler_list ts m reg = (appendLeaves reg (EventTree.leafIdsList ts) m, none))
    ?_ ?_ ?_ ?_ ?_ ?_
  · intro m reg i children hempty e he hv
    rw [hv] at he
    simp at he
  · intro m reg i children hempty hv _
    rw [add_handler, if_pos hempty, hv, EventTree.leafIds, if_pos hempty]
    simp [appendLeaves]
  · intro m reg i children hne ih hv
    rw [add_handler, if_neg hne, EventTree.leafIds, if_neg hne]
    exact ih hv
  · intro m reg _
    simp [add_handler_list, EventTree.leafIdsList, appendLeaves]
  · intro m reg t ts reg' hok iht ihts hv
    have h := (iht hv).symm.trans hok
    injection h with h1 h2
    rw [add_handler_list, hok, EventTree.leafIdsList, appendLeaves_append, h1]
    exact ihts hv
  · intro m reg t ts reg' e herr iht hv
    have h := (iht hv).symm.trans herr
    injection h with h1 h2
    exact Option.noConfusion h2

/-- A failing `_validate_signature` aborts `add_handler` at the first leaf
visited, before any registry mutation. -/
theorem add_handler_of_invalid (e : SignatureError) :
    ∀ (t : EventTree) (m : Handler) (reg : Registry),
      validate_signature m = some e →
      add_handler t m reg = (reg, some e) := by
  refine add_handler.induct
    (fun t m reg => validate_signature m = some e →
      add_handler t m reg = (reg, some e))
    (fun ts m reg => validate_signature m = some e → ts ≠ [] →
      add_handler_list ts m reg = (reg, some e))
    ?_ ?_ ?_ ?_ ?_ ?_
  · intro m reg i children hempty e' he hv
    rw [add_handler, if_pos hempty, he]
    have h := he.symm.trans hv
    injection h with h1
    rw [h1]
  · intro m reg i children hempty hv hv'
    exact Option.noConfusion (hv.symm.trans hv')
  · intro m reg i children hne ih hv
    rw [add_handler, if_neg hne]
    exact ih hv (by simpa using hne)
  · intro m reg _ h
    exact absurd rfl h
  · intro m reg t ts reg' hok iht ihts hv _
    have h := (iht hv).symm.trans hok
    injection h with h1 h2
    exact Option.noConfusion h2
  · intro m reg t ts reg' e' herr iht hv _
    have h := (iht hv).symm.trans herr
    injection h with h1 h2
    injection h2 with h3
    rw [add_handler_list, herr, ← h1, ← h3]


/-- Registering the same handler over a list of leaf classes, one
`add_handler` call per leaf. -/
theorem registerAll_leaves (ls : List Nat) (m : Handler) (reg : Registry)
    (hv : validate_signature m = none) :
    registerAll (ls.map (fun i => (EventTree.mk i [], m))) reg =
      (appendLeaves reg ls m, none) := by
  induction ls generalizing reg with
  | nil => simp [registerAll, appendLeaves]
  | cons l rest ih =>
    simp only [List.map_cons, registerAll]
    rw [add_handler_of_valid _ _ _ hv]
    simp only [EventTree.leafIds, List.isEmpty_nil, if_pos]
    simp only [appendLeaves]
    exact ih _

/-- Cumulative effect of a chronological sequence of valid `add_handler`
calls: per-leaf lookup is the filtered chronological handler sequence, and
every key added is a leaf id of some registered subtree. -/
theorem registerAll_char (regs : List (EventTree × Handler)) (reg : Registry)
    (hvalid : ∀ r ∈ regs, validate_signature r.2 = none)
    (hnd : ∀ r ∈ regs, r.1.leafIds.Nodup) :
    (registerAll regs reg).2 = none ∧
    (∀ L, (registerAll regs reg).1.get L =
      reg.get L ++ (regs.filter (fun r => decide (L ∈ r.1.leafIds))).map (·.2)) ∧
    (∀ x, x ∈ (registerAll regs reg).1.keys →
      x ∈ reg.keys ∨ ∃ r ∈ regs, x ∈ r.1.leafIds) := by
  induction regs generalizing reg with
  | nil => simp [registerAll]
  | cons r rest ih =>
    obtain ⟨t, m⟩ := r
    have hv : validate_signature m = none := hvalid (t, m) (by simp)
    have hstep := add_handler_of_valid t m reg hv
    obtain ⟨ih1, ih2, ih3⟩ := ih (appendLeaves reg t.leafIds m)
      (fun r hr => hvalid r (by simp [hr])) (fun r hr => hnd r (by simp [hr]))
    refine ⟨?_, fun L => ?_, fun x hx => ?_⟩
    · simp only [registerAll, hstep]
      exact ih1
    · simp only [registerAll, hstep]
      rw [ih2 L, get_appendLeaves _ _ _ _ (hnd (t, m) (by simp))]
      by_cases hL : L ∈ t.leafIds
      · simp [hL, List.filter_cons]
      · simp [hL, List.filter_cons]
    · simp only [registerAll, hstep] at hx
      rcases ih3 x hx with h | ⟨r, hr, hxr⟩
      · rcases mem_keys_appendLeaves reg t.leafIds m x h with h' | h'
        · exact Or.inl h'
        · exact Or.inr ⟨(t, m), by simp, h'⟩
      · exact Or.inr ⟨r, by simp [hr], hxr⟩

/-- C1: For every finite sequence of `add_handler(eventType, handler)`
calls over the static EventType hierarchy (handlers all of valid arity,
each registered subtree listing its leaf classes without duplicate ids)
and for every leaf id `L`, the resulting `handlers[L]` sequence equals the
chronological subsequence of registered handlers whose `eventType`
argument has `L` among its leaf descendants (i.e. is `L` itself or an
ancestor of `L`); registering on a non-leaf type equals registering the
handler individually on every leaf descendant in depth-first declaration
order; and the registry never holds a key that is not a leaf id of some
registered subtree. -/
theorem C1_add_handler_leaf_fanout (regs : List (EventTree × Handler))
    (hvalid : ∀ r ∈ regs, r.2.params.length = 1)
    (hnd : ∀ r ∈ regs, r.1.leafIds.Nodup) :
    (registerAll regs handlers).2 = none ∧
    (∀ L, (registerAll regs handlers).1.get L =
        (regs.filter (fun r => decide (L ∈ r.1.leafIds))).map (·.2)) ∧
    (∀ x ∈ (registerAll regs handlers).1.keys, ∃ r ∈ regs, x ∈ r.1.leafIds) ∧
    (∀ (t : EventTree) (m : Handler) (reg : Registry), m.params.length = 1 →
      add_handler t m reg =
        registerAll (t.leafIds.map (fun i => (EventTree.mk i [], m))) reg) := by
  obtain ⟨h1, h2, h3⟩ := registerAll_char regs handlers
    (fun r hr => (validate_signature_eq_none r.2).mpr (hvalid r hr)) hnd
  refine ⟨h1, fun L => ?_, fun x hx => ?_, fun t m reg hm => ?_⟩
  · have h := h2 L
    simpa [handlers, Registry.get] using h
  · rcases h3 x hx with h | h
    · exact absurd h (by simp [handlers, Registry.keys])
    · exact h
  · have hv : validate_signature m = none := (validate_signature_eq_none m).mpr hm
    rw [registerAll_leaves _ _ _ hv, add_handler_of_valid _ _ _ hv]

/-- C5: Registering a handler whose signature declares zero or more than
one parameter, via `add_handler` or the `webhook_handler` decorator,
against any EventType, raises `SignatureError` at registration time with
the message naming the handler and its actual parameter list (see
`mkSignatureError`), and the failed call leaves every registry entry
untouched (atomic failure). -/
theorem C5_signature_error_atomic (t : EventTree) (m : Handler) (reg : Registry)
    (hbad : m.params.length ≠ 1) :
    add_handler t m reg =
      (reg, some (mkSignatureError m
        (String.intercalate ", " (m.params.map (·.name))))) ∧
    webhook_handler t m reg =
      ((reg, some (mkSignatureError m
        (String.intercalate ", " (m.params.map (·.name))))), m) := by
  have hv : validate_signature m =
      some (mkSignatureError m (String.intercalate ", " (m.params.map (·.name)))) := by
    unfold validate_signature
    simp [hbad]
  have h := add_handler_of_invalid _ t m reg hv
  exact ⟨h, by rw [webhook_handler, h]⟩

/-- Whether a Python call `f(x)` with a single positional argument binds
successfully against a declared parameter list.  Modelled from CPython's
argument-binding rules: the argument fills the first positional slot (or
goes to `*args` when there is no positional slot), every later positional
parameter and every keyword-only parameter must carry a default. -/
def bindsSingleArg (ps : List PyParam) : Bool :=
  let positionals := ps.filter fun q => decide (q.kind = ParamKind.positional)
  ((decide (1 ≤ positionals.length)) ||
      ps.any fun q => decide (q.kind = ParamKind.varPositional)) &&
    (positionals.drop 1).all (fun q => q.hasDefault) &&
    (ps.filter fun q => decide (q.kind = ParamKind.keywordOnly)).all
      (fun q => q.hasDefault)

/-- C10: The registration arity check counts every declared parameter.
A handler with one required positional parameter plus at least one
defaulted positional parameter is callable with a single positional
argument, yet `add_handler` raises `SignatureError` on it; and a handler
declaring exactly one parameter of any kind passes the check. -/
theorem C10_arity_counts_all_params (t : EventTree) (reg : Registry)
    (m : Handler) (p : PyParam) (ps : List PyParam)
    (hm : m.params = p :: ps)
    (hpk : p.kind = ParamKind.positional) (hpd : p.hasDefault = false)
    (hne : ps ≠ [])
    (hps : ∀ q ∈ ps, q.kind = ParamKind.positional ∧ q.hasDefault = true) :
    bindsSingleArg m.params = true ∧
    add_handler t m reg =
      (reg, some (mkSignatureError m
        (String.intercalate ", " (m.params.map (·.name))))) ∧
    (∀ m1 : Handler, m1.params.length = 1 → validate_signature m1 = none) := by
  refine ⟨?_, ?_, fun m1 h1 => (validate_signature_eq_none m1).mpr h1⟩
  · have h1 : (p :: ps).filter (fun q => decide (q.kind = ParamKind.positional)) =
        p :: ps := by
      rw [List.filter_cons_of_pos (by simp [hpk])]
      congr 1
      rw [List.filter_eq_self]
      intro a ha
      simp [(hps a ha).1]
    have h2 : (p :: ps).filter (fun q => decide (q.kind = ParamKind.keywordOnly)) =
        [] := by
      rw [List.filter_eq_nil_iff]
      intro a ha
      rcases List.mem_cons.mp ha with h | h
      · subst h
        simp [hpk]
      · simp [(hps a h).1]
    rw [hm]
    simp only [bindsSingleArg, h1, h2]
    simp only [List.drop_one, List.tail_cons, List.all_nil, Bool.and_true]
    have hall : ps.all (fun q => q.hasDefault) = true := by
      rw [List.all_eq_true]
      intro q hq
      simp [(hps q hq).2]
    simp [hall]
  · have hlen : m.params.length ≠ 1 := by
      rw [hm]
      cases ps with
      | nil => exact absurd rfl hne
      | cons a l => simp
    have hv : validate_signature m =
        some (mkSignatureError m (String.intercalate ", " (m.params.map (·.name)))) := by
      unfold validate_signature
      simp [hlen]
    exact add_handler_of_invalid _ t m reg hv


/-! ## Dispatch lemmas -/

/-- The effect trace of `n` consecutive successful iterations of the
dispatch loop starting at iteration `i`: each iteration constructs a fresh
instance and invokes its handler with it. -/
def okTrace (event_class : Nat) (body : Body) (i n : Nat) : List Effect :=
  match n with
  | 0 => []
  | Nat.succ n' =>
    .constructEvent (mk_event event_class body i) ::
      .invoke i (mk_event event_class body i) :: okTrace event_class body (i + 1) n'

/-- Number of event-instance constructions recorded in a trace. -/
def countConstructs (effs : List Effect) : Nat :=
  match effs with
  | [] => 0
  | .constructEvent _ :: rest => countConstructs rest + 1
  | _ :: rest => countConstructs rest

/-- Number of handler invocations recorded in a trace. -/
def countInvokes (effs : List Effect) : Nat :=
  match effs with
  | [] => 0
  | .invoke _ _ :: rest => countInvokes rest + 1
  | _ :: rest => countInvokes rest

/-- All-successful dispatch loop: the trace is `okTrace` and nothing is
raised. -/
theorem run_handlers_ok (hs : List Handler) (c : Nat) (b : Body) :
    ∀ i, (∀ g ∈ hs, g.behavior = none) →
      run_handlers hs c b i = (okTrace c b i hs.length, Except.ok ()) := by
  induction hs with
  | nil =>
    intro i _
    simp [run_handlers, okTrace]
  | cons g rest ih =>
    intro i h
    have hg : g.behavior = none := h g (by simp)
    have ih' := ih (i + 1) (fun g' hg' => h g' (by simp [hg']))
    simp [run_handlers, hg, ih', okTrace]

/-- Dispatch loop with a first failing handler after `pre` successful
ones: the successful prefix runs, the failing iteration constructs and
invokes, the check run is updated exactly when the instance carries one,
and the handler's own exception is re-raised.  No later handler appears in
the trace. -/
theorem run_handlers_err (pre : List Handler) (h : Handler) (post : List Handler)
    (c : Nat) (b : Body) (e : PyExc) :
    ∀ i, (∀ g ∈ pre, g.behavior = none) → h.behavior = some e →
      run_handlers (pre ++ h :: post) c b i =
        (okTrace c b i pre.length ++
          [Effect.constructEvent (mk_event c b (i + pre.length)),
           Effect.invoke (i + pre.length) (mk_event c b (i + pre.length))] ++
          (if b.has_check_run then
              [Effect.update_check_run "failure" (format_exc e)]
            else []),
         Except.error e) := by
  induction pre with
  | nil =>
    intro i _ hb
    by_cases hcr : b.has_check_run <;>
      simp [run_handlers, hb, okTrace, mk_event, hcr]
  | cons g rest ih =>
    intro i hpre hb
    have hg : g.behavior = none := hpre g (by simp)
    have ih' := ih (i + 1) (fun g' hg' => hpre g' (by simp [hg'])) hb
    have harith : i + 1 + rest.length = i + (rest.length + 1) := by omega
    simp [run_handlers, hg, ih', okTrace, harith]

/-- Every invocation recorded in `okTrace` is of a handler index within
the window, receiving the instance constructed for that very index. -/
theorem invoke_mem_okTrace (c : Nat) (b : Body) :
    ∀ (n i j : Nat) (ev : EventInst),
      Effect.invoke j ev ∈ okTrace c b i n →
      i ≤ j ∧ j < i + n ∧ ev = mk_event c b j := by
  intro n
  induction n with
  | zero =>
    intro i j ev h
    simp [okTrace] at h
  | succ n ih =>
    intro i j ev h
    rw [okTrace] at h
    rcases List.mem_cons.mp h with h1 | h1
    · exact absurd h1 (by simp)
    rcases List.mem_cons.mp h1 with h2 | h2
    · have h3 : j = i ∧ ev = mk_event c b i := by simpa using h2
      obtain ⟨hj, hev⟩ := h3
      subst hj
      exact ⟨Nat.le_refl j, by omega, hev⟩
    · obtain ⟨h3, h4, h5⟩ := ih (i + 1) j ev h2
      exact ⟨by omega, by omega, h5⟩

/-- A purely successful prefix of the dispatch loop performs no check-run
update. -/
theorem update_not_mem_okTrace (c : Nat) (b : Body) :
    ∀ (n i : Nat) (concl txt : String),
      Effect.update_check_run concl txt ∉ okTrace c b i n := by
  intro n
  induction n with
  | zero =>
    intro i concl txt h
    simp [okTrace] at h
  | succ n ih =>
    intro i concl txt h
    rw [okTrace] at h
    rcases List.mem_cons.mp h with h1 | h1
    · exact absurd h1 (by simp)
    rcases List.mem_cons.mp h1 with h2 | h2
    · exact absurd h2 (by simp)
    · exact ih (i + 1) concl txt h2

/-- The dispatch loop constructs exactly as many event instances as it
performs handler invocations. -/
theorem counts_run_handlers (hs : List Handler) (c : Nat) (b : Body) :
    ∀ i, countConstructs (run_handlers hs c b i).1 =
      countInvokes (run_handlers hs c b i).1 := by
  induction hs with
  | nil =>
    intro i
    simp [run_handlers, countConstructs, countInvokes]
  | cons g rest ih =>
    intro i
    cases hg : g.behavior with
    | none =>
      simp [run_handlers, hg, countConstructs, countInvokes, ih (i + 1)]
    | some e =>
      by_cases hcr : b.has_check_run <;>
        simp [run_handlers, hg, mk_event, hcr, countConstructs, countInvokes]

/-- Every handler invocation in the dispatch loop receives the instance
freshly constructed in its own iteration. -/
theorem invoke_mem_run_handlers (hs : List Handler) (c : Nat) (b : Body) :
    ∀ (i j : Nat) (ev : EventInst),
      Effect.invoke j ev ∈ (run_handlers hs c b i).1 →
      ev = mk_event c b j ∧ i ≤ j := by
  induction hs with
  | nil =>
    intro i j ev h
    simp [run_handlers] at h
  | cons g rest ih =>
    intro i j ev h
    cases hg : g.behavior with
    | none =>
      simp only [run_handlers, hg] at h
      rcases List.mem_cons.mp h with h1 | h1
      · exact absurd h1 (by simp)
      rcases List.mem_cons.mp h1 with h2 | h2
      · have h3 : j = i ∧ ev = mk_event c b i := by simpa using h2
        obtain ⟨hj, hev⟩ := h3
        subst hj
        exact ⟨hev, Nat.le_refl j⟩
      · obtain ⟨h3, h4⟩ := ih (i + 1) j ev h2
        exact ⟨h3, by omega⟩
    | some e =>
      simp only [run_handlers, hg] at h
      by_cases hcr : (mk_event c b i).check_run = true
      · rw [if_pos hcr] at h
        have h3 : j = i ∧ ev = mk_event c b i := by
          simpa using h
        obtain ⟨hj, hev⟩ := h3
        subst hj
        exact ⟨hev, Nat.le_refl j⟩
      · rw [if_neg hcr] at h
        have h3 : j = i ∧ ev = mk_event c b i := by
          simpa using h
        obtain ⟨hj, hev⟩ := h3
        subst hj
        exact ⟨hev, Nat.le_refl j⟩

/-- Once the plumbing at the head of `handle` succeeds (resolution, the
installation-target-id header, the installation id in the body), `handle`
is the dispatch loop over `handlers.get(event_class, [])`. -/
theorem handle_plumbing (g : Headers → Body → Except PyExc Nat) (reg : Registry)
    (hdrs : Headers) (body : Body) (c : Nat) (v : String) (n : Int)
    (inst : Installation) (iid : Int)
    (hres : g hdrs body = Except.ok c)
    (hhdr : hdrs.get "X-Github-Hook-Installation-Target-Id" = some v)
    (hint : pyInt v = Except.ok n)
    (hinst : body.installation = some inst)
    (hid : inst.id = some iid) :
    handle g reg hdrs body =
      (reg, (run_handlers (reg.get c) c body 0).1,
        (run_handlers (reg.get c) c body 0).2) := by
  simp only [handle, hres, hhdr, hint, hinst, hid]


/-! ## Dispatch claim theorems -/

/-- C2: For a dispatch whose resolved event type has at least two
registered handlers (`pre ++ h :: post`), if the handler at position
`pre.length` raises (all earlier ones returning normally), then no handler
with a later position is invoked for that delivery, and the original
exception raised by that handler propagates to the caller of `handle`. -/
theorem C2_handler_error_aborts_rest (g : Headers → Body → Except PyExc Nat)
    (reg : Registry) (hdrs : Headers) (body : Body) (c : Nat) (v : String)
    (n : Int) (inst : Installation) (iid : Int)
    (pre : List Handler) (h : Handler) (post : List Handler) (e : PyExc)
    (hres : g hdrs body = Except.ok c)
    (hhdr : hdrs.get "X-Github-Hook-Installation-Target-Id" = some v)
    (hint : pyInt v = Except.ok n)
    (hinst : body.installation = some inst)
    (hid : inst.id = some iid)
    (hget : reg.get c = pre ++ h :: post)
    (_htwo : 2 ≤ (pre ++ h :: post).length)
    (hpre : ∀ g' ∈ pre, g'.behavior = none)
    (hbeh : h.behavior = some e) :
    (handle g reg hdrs body).2.2 = Except.error e ∧
    (∀ (j : Nat) (ev : EventInst),
      Effect.invoke j ev ∈ (handle g reg hdrs body).2.1 → j ≤ pre.length) := by
  rw [handle_plumbing g reg hdrs body c v n inst iid hres hhdr hint hinst hid, hget,
    run_handlers_err pre h post c body e 0 hpre hbeh]
  refine ⟨rfl, fun j ev hmem => ?_⟩
  simp only [List.append_assoc, List.mem_append] at hmem
  rcases hmem with h1 | h2 | h2
  · have := invoke_mem_okTrace c body pre.length 0 j ev h1
    omega
  · rcases List.mem_cons.mp h2 with h3 | h3
    · exact absurd h3 (by simp)
    rcases List.mem_cons.mp h3 with h4 | h4
    · have h5 : j = 0 + pre.length := by
        have := (by simpa using h4 : j = 0 + pre.length ∧ ev = mk_event c body (0 + pre.length))
        exact this.1
      omega
    · exact absurd h4 (by simp)
  · by_cases hcr : body.has_check_run = true
    · rw [if_pos hcr] at h2
      exact absurd h2 (by simp)
    · rw [if_neg hcr] at h2
      exact absurd h2 (by simp)

/-- C3: When the handler at position `pre.length` raises during dispatch
and the constructed event instance carries a bound check-run reference,
`handle` calls `update_check_run` with conclusion `"failure"` and the
formatted traceback as `text`, as the last action before the exception
propagates; with no check-run reference bound, no check-run update happens
and the exception simply propagates. -/
theorem C3_check_run_updated_on_failure (g : Headers → Body → Except PyExc Nat)
    (reg : Registry) (hdrs : Headers) (body : Body) (c : Nat) (v : String)
    (n : Int) (inst : Installation) (iid : Int)
    (pre : List Handler) (h : Handler) (post : List Handler) (e : PyExc)
    (hres : g hdrs body = Except.ok c)
    (hhdr : hdrs.get "X-Github-Hook-Installation-Target-Id" = some v)
    (hint : pyInt v = Except.ok n)
    (hinst : body.installation = some inst)
    (hid : inst.id = some iid)
    (hget : reg.get c = pre ++ h :: post)
    (hpre : ∀ g' ∈ pre, g'.behavior = none)
    (hbeh : h.behavior = some e) :
    (handle g reg hdrs body).2.2 = Except.error e ∧
    (body.has_check_run = true →
      (handle g reg hdrs body).2.1 =
        okTrace c body 0 pre.length ++
          [Effect.constructEvent (mk_event c body pre.length),
           Effect.invoke pre.length (mk_event c body pre.length),
           Effect.update_check_run "failure" (format_exc e)]) ∧
    (body.has_check_run = false →
      ∀ (concl txt : String),
        Effect.update_check_run concl txt ∉ (handle g reg hdrs body).2.1) := by
  rw [handle_plumbing g reg hdrs body c v n inst iid hres hhdr hint hinst hid, hget,
    run_handlers_err pre h post c body e 0 hpre hbeh]
  refine ⟨rfl, fun hcr => ?_, fun hcr concl txt hmem => ?_⟩
  · rw [if_pos hcr]
    simp
  · rw [if_neg (by simp [hcr])] at hmem
    simp only [List.append_nil, List.mem_append] at hmem
    rcases hmem with h1 | h1
    · exact update_not_mem_okTrace c body pre.length 0 concl txt h1
    · rcases List.mem_cons.mp h1 with h2 | h2
      · exact absurd h2 (by simp)
      rcases List.mem_cons.mp h2 with h3 | h3
      · exact absurd h3 (by simp)
      · exact absurd h3 (by simp)

/-- C4 (amended): when a handler raises during dispatch, `handle` surfaces
to its caller exactly the exception object the handler itself raised — a
bare `raise` re-raise, with no wrapping of any kind (the code defines no
`HandlerError`); the check-run annotation is the only action taken before
re-raising. -/
theorem C4_amended_bare_reraise (g : Headers → Body → Except PyExc Nat)
    (reg : Registry) (hdrs : Headers) (body : Body) (c : Nat) (v : String)
    (n : Int) (inst : Installation) (iid : Int)
    (pre : List Handler) (h : Handler) (post : List Handler) (e : PyExc)
    (hres : g hdrs body = Except.ok c)
    (hhdr : hdrs.get "X-Github-Hook-Installation-Target-Id" = some v)
    (hint : pyInt v = Except.ok n)
    (hinst : body.installation = some inst)
    (hid : inst.id = some iid)
    (hget : reg.get c = pre ++ h :: post)
    (hpre : ∀ g' ∈ pre, g'.behavior = none)
    (hbeh : h.behavior = some e) :
    (handle g reg hdrs body).2.2 = Except.error e := by
  rw [handle_plumbing g reg hdrs body c v n inst iid hres hhdr hint hinst hid, hget,
    run_handlers_err pre h post c body e 0 hpre hbeh]

/-- C6 (amended): `handle` constructs one event instance per handler
invocation — the construction sits inside the dispatch loop — so the trace
holds exactly as many constructions as invocations, and each invoked
handler receives as sole argument the instance constructed in its own
iteration (distinct per iteration), all built from the same resolved event
class and raw `(headers, body)`. -/
theorem C6_amended_instance_per_invocation (g : Headers → Body → Except PyExc Nat)
    (reg : Registry) (hdrs : Headers) (body : Body) (c : Nat) (v : String)
    (n : Int) (inst : Installation) (iid : Int)
    (hres : g hdrs body = Except.ok c)
    (hhdr : hdrs.get "X-Github-Hook-Installation-Target-Id" = some v)
    (hint : pyInt v = Except.ok n)
    (hinst : body.installation = some inst)
    (hid : inst.id = some iid) :
    countConstructs (handle g reg hdrs body).2.1 =
      countInvokes (handle g reg hdrs body).2.1 ∧
    (∀ (j : Nat) (ev : EventInst),
      Effect.invoke j ev ∈ (handle g reg hdrs body).2.1 → ev = mk_event c body j) := by
  rw [handle_plumbing g reg hdrs body c v n inst iid hres hhdr hint hinst hid]
  exact ⟨counts_run_handlers (reg.get c) c body 0,
    fun j ev hm => (invoke_mem_run_handlers (reg.get c) c body 0 j ev hm).1⟩

/-- C7: when the resolved event class has no registered handlers (and the
request plumbing is well formed), `handle` is a no-op: it raises nothing,
invokes no handler, performs no check-run update, records no effect at
all, and leaves the registry untouched. -/
theorem C7_no_handlers_noop (g : Headers → Body → Except PyExc Nat)
    (reg : Registry) (hdrs : Headers) (body : Body) (c : Nat) (v : String)
    (n : Int) (inst : Installation) (iid : Int)
    (hres : g hdrs body = Except.ok c)
    (hhdr : hdrs.get "X-Github-Hook-Installation-Target-Id" = some v)
    (hint : pyInt v = Except.ok n)
    (hinst : body.installation = some inst)
    (hid : inst.id = some iid)
    (hempty : reg.get c = []) :
    handle g reg hdrs body = (reg, [], Except.ok ()) := by
  rw [handle_plumbing g reg hdrs body c v n inst iid hres hhdr hint hinst hid, hempty]
  simp [run_handlers]

/-- C8 (amended): when the headers lack the
`X-Github-Hook-Installation-Target-Id` key (and resolution itself
succeeded), `handle` fails immediately with the built-in `KeyError` the
subscript raises — the code defines no `MalformedRequestError` — and no
handler is invoked, no effect happens. -/
theorem C8_amended_missing_header_keyerror (g : Headers → Body → Except PyExc Nat)
    (reg : Registry) (hdrs : Headers) (body : Body) (c : Nat)
    (hres : g hdrs body = Except.ok c)
    (hhdr : hdrs.get "X-Github-Hook-Installation-Target-Id" = none) :
    handle g reg hdrs body =
      (reg, [], Except.error (PyExc.keyError "X-Github-Hook-Installation-Target-Id")) := by
  simp only [handle, hres, hhdr]

/-- C9: `handle` never mutates the handlers registry — it reads it only
through `dict.get`, which inserts nothing even on a `defaultdict` — so
after any call (resolution failure, missing fields, empty lookup, handler
exception, or success) the registry is exactly what it was before. -/
theorem C9_handle_preserves_registry (g : Headers → Body → Except PyExc Nat)
    (reg : Registry) (hdrs : Headers) (body : Body) :
    (handle g reg hdrs body).1 = reg := by
  cases hres : g hdrs body with
  | error e => simp [handle, hres]
  | ok c =>
    cases hhdr : hdrs.get "X-Github-Hook-Installation-Target-Id" with
    | none => simp [handle, hres, hhdr]
    | some v =>
      cases hint : pyInt v with
      | error e => simp [handle, hres, hhdr, hint]
      | ok n =>
        cases hinst : body.installation with
        | none => simp [handle, hres, hhdr, hint, hinst]
        | some inst =>
          cases hid : inst.id with
          | none => simp [handle, hres, hhdr, hint, hinst, hid]
          | some iid => simp [handle, hres, hhdr, hint, hinst, hid]


/-! ## Concrete fixtures (the hierarchy shipped in
`githubapp/events/issue_comment.py`), witnesses and counterexamples -/

/-- `IssueCommentEvent` (id 1) with its subclasses
`IssueCommentCreatedEvent` (2), `IssueCommentDeletedEvent` (3),
`IssueCommentEditedEvent` (4), in declaration order. -/
def issueCommentTree : EventTree :=
  .mk 1 [.mk 2 [], .mk 3 [], .mk 4 []]

/-- A well-formed handler that returns normally. -/
def hFirst : Handler := ⟨"app.on_any_comment", [⟨"event", .positional, false⟩], none⟩

/-- A second well-formed handler that returns normally. -/
def hSecond : Handler := ⟨"app.on_created", [⟨"event", .positional, false⟩], none⟩

/-- A well-formed handler that raises `RuntimeError("boom")`. -/
def hRaising : Handler :=
  ⟨"app.failing", [⟨"event", .positional, false⟩], some (.exc "RuntimeError" "boom")⟩

/-- A well-formed handler that raises `KeyError('installation')` — the very
exception a missing body field raises. -/
def hKeyErr : Handler :=
  ⟨"app.raises_keyerror", [⟨"event", .positional, false⟩], some (.keyError "installation")⟩

/-- A handler declaring no parameter at all. -/
def hNoArgs : Handler := ⟨"app.no_args", [], none⟩

/-- `def h(event, extra=None)`: one required positional parameter plus one
defaulted one — callable with a single positional argument. -/
def hTwoParams : Handler :=
  ⟨"app.with_default",
    [⟨"event", .positional, false⟩, ⟨"extra", .positional, true⟩], none⟩

/-- A resolver that classifies every delivery as class 2
(`IssueCommentCreatedEvent`). -/
def demoResolver : Headers → Body → Except PyExc Nat := fun _ _ => .ok 2

/-- Headers carrying the installation-target-id key. -/
def demoHeaders : Headers :=
  [("X-Github-Event", "issue_comment"),
   ("X-Github-Hook-Installation-Target-Id", "123")]

/-- Headers lacking the installation-target-id key. -/
def noIdHeaders : Headers := [("X-Github-Event", "issue_comment")]

/-- A body with `installation.id` present and no check run bound. -/
def demoBody : Body := ⟨some ⟨some 77⟩, false⟩

/-- A body with `installation.id` present and a check run bound. -/
def checkRunBody : Body := ⟨some ⟨some 77⟩, true⟩

/-- A body whose `installation` key is missing. -/
def noInstallBody : Body := ⟨none, false⟩

theorem C1_add_handler_leaf_fanout_witness :
    (registerAll [(issueCommentTree, hFirst), (EventTree.mk 2 [], hSecond)]
        handlers).2 = none ∧
    (registerAll [(issueCommentTree, hFirst), (EventTree.mk 2 [], hSecond)]
        handlers).1.get 2 = [hFirst, hSecond] := by
  have h := C1_add_handler_leaf_fanout
    [(issueCommentTree, hFirst), (EventTree.mk 2 [], hSecond)]
    (by decide) (by decide)
  refine ⟨h.1, ?_⟩
  rw [h.2.1 2]
  decide

theorem C2_handler_error_aborts_rest_witness :
    (handle demoResolver [(2, [hFirst, hRaising])] demoHeaders demoBody).2.2 =
      Except.error (PyExc.exc "RuntimeError" "boom") :=
  (C2_handler_error_aborts_rest demoResolver [(2, [hFirst, hRaising])]
    demoHeaders demoBody 2 "123" 123 ⟨some 77⟩ 77 [hFirst] hRaising []
    (PyExc.exc "RuntimeError" "boom")
    rfl (by decide) rfl rfl rfl (by decide) (by decide) (by decide) rfl).1

theorem C3_check_run_updated_on_failure_witness :
    (handle demoResolver [(2, [hRaising])] demoHeaders checkRunBody).2.2 =
      Except.error (PyExc.exc "RuntimeError" "boom") ∧
    (handle demoResolver [(2, [hRaising])] demoHeaders checkRunBody).2.1 =
      okTrace 2 checkRunBody 0 0 ++
        [Effect.constructEvent (mk_event 2 checkRunBody 0),
         Effect.invoke 0 (mk_event 2 checkRunBody 0),
         Effect.update_check_run "failure"
           (format_exc (PyExc.exc "RuntimeError" "boom"))] := by
  have h := C3_check_run_updated_on_failure demoResolver [(2, [hRaising])]
    demoHeaders checkRunBody 2 "123" 123 ⟨some 77⟩ 77 [] hRaising []
    (PyExc.exc "RuntimeError" "boom")
    rfl (by decide) rfl rfl rfl (by decide) (by decide) rfl
  exact ⟨h.1, h.2.1 rfl⟩

/-- The claim's `HandlerError` does not exist: a handler that raises
`KeyError('installation')` surfaces through `handle` as exactly that
`KeyError` — the identical error value produced when the body merely lacks
its `installation` key and no handler runs at all — so the error surfaced
from dispatch carries no wrapper kind distinguishing it from
resolution/construction failures. -/
theorem C4_counterexample_no_handler_error_kind :
    (handle demoResolver [(2, [hKeyErr])] demoHeaders demoBody).2.2 =
      (handle demoResolver [(2, [hKeyErr])] demoHeaders noInstallBody).2.2 ∧
    (handle demoResolver [(2, [hKeyErr])] demoHeaders noInstallBody).2.1 = [] ∧
    (handle demoResolver [(2, [hKeyErr])] demoHeaders demoBody).2.2 =
      Except.error (PyExc.keyError "installation") := by
  exact ⟨rfl, rfl, rfl⟩

theorem C4_amended_bare_reraise_witness :
    (handle demoResolver [(2, [hKeyErr])] demoHeaders demoBody).2.2 =
      Except.error (PyExc.keyError "installation") :=
  C4_amended_bare_reraise demoResolver [(2, [hKeyErr])] demoHeaders demoBody
    2 "123" 123 ⟨some 77⟩ 77 [] hKeyErr [] (PyExc.keyError "installation")
    rfl (by decide) rfl rfl rfl (by decide) (by decide) rfl

/-- The claim's "exactly one Event Instance ... every invoked handler
receives that same single Event Instance" is false on the code: with two
registered handlers the dispatch loop constructs two instances, and each
handler receives a different one (`event = event_class(...)` sits inside
the `for` loop). -/
theorem C6_counterexample_two_instances :
    countConstructs
      (handle demoResolver [(2, [hFirst, hSecond])] demoHeaders demoBody).2.1 = 2 ∧
    Effect.invoke 0 (mk_event 2 demoBody 0) ∈
      (handle demoResolver [(2, [hFirst, hSecond])] demoHeaders demoBody).2.1 ∧
    Effect.invoke 1 (mk_event 2 demoBody 1) ∈
      (handle demoResolver [(2, [hFirst, hSecond])] demoHeaders demoBody).2.1 ∧
    mk_event 2 demoBody 0 ≠ mk_event 2 demoBody 1 := by
  refine ⟨rfl, by decide, by decide, by decide⟩

theorem C6_amended_instance_per_invocation_witness :
    countConstructs
        (handle demoResolver [(2, [hFirst, hSecond])] demoHeaders demoBody).2.1 =
      countInvokes
        (handle demoResolver [(2, [hFirst, hSecond])] demoHeaders demoBody).2.1 :=
  (C6_amended_instance_per_invocation demoResolver [(2, [hFirst, hSecond])]
    demoHeaders demoBody 2 "123" 123 ⟨some 77⟩ 77
    rfl (by decide) rfl rfl rfl).1

theorem C7_no_handlers_noop_witness :
    handle demoResolver handlers demoHeaders demoBody =
      (handlers, [], Except.ok ()) :=
  C7_no_handlers_noop demoResolver handlers demoHeaders demoBody
    2 "123" 123 ⟨some 77⟩ 77 rfl (by decide) rfl rfl rfl rfl

/-- The claim's `MalformedRequestError` does not exist in the code: with
the installation-target-id header absent, `handle` raises the built-in
`KeyError` from the dict subscript (no handler invoked, empty trace). -/
theorem C8_counterexample_keyerror_not_malformed :
    handle demoResolver [(2, [hFirst])] noIdHeaders demoBody =
      ([(2, [hFirst])], [],
        Except.error (PyExc.keyError "X-Github-Hook-Installation-Target-Id")) := by
  rfl

theorem C8_amended_missing_header_keyerror_witness :
    handle demoResolver handlers noIdHeaders demoBody =
      (handlers, [],
        Except.error (PyExc.keyError "X-Github-Hook-Installation-Target-Id")) :=
  C8_amended_missing_header_keyerror demoResolver handlers noIdHeaders demoBody
    2 rfl (by decide)

theorem C5_signature_error_atomic_witness :
    add_handler issueCommentTree hNoArgs handlers =
      (handlers, some (mkSignatureError hNoArgs
        (String.intercalate ", " (hNoArgs.params.map (·.name))))) :=
  (C5_signature_error_atomic issueCommentTree hNoArgs handlers (by decide)).1

theorem C10_arity_counts_all_params_witness :
    bindsSingleArg hTwoParams.params = true ∧
    add_handler (EventTree.mk 2 []) hTwoParams handlers =
      (handlers, some (mkSignatureError hTwoParams
        (String.intercalate ", " (hTwoParams.params.map (·.name))))) := by
  have h := C10_arity_counts_all_params (EventTree.mk 2 []) handlers hTwoParams
    ⟨"event", .positional, false⟩ [⟨"extra", .positional, true⟩]
    rfl rfl rfl (by decide) (by decide)
  exact ⟨h.1, h.2.1⟩

end GithubApp
